import Mathlib

/-!
Shallow embedding of the kvcouchbase-provider repository
(src/main.rs and src/config.rs): a wasmCloud key-value capability
provider backed by Couchbase.  Pure control flow is translated
directly; the external collaborators (base64 decoding, JSON parsing,
and the Couchbase driver calls) are passed in as oracle functions,
exactly at the call sites where the Rust code invokes them.
-/

namespace KvCouchbase

/-- Errors returned by provider operations; the `wasmbus_rpc::error::RpcError`
variants that appear in this code base. -/
inductive RpcError where
  | ProviderInit (msg : String)
  | InvalidParameter (msg : String)
  | NotImplemented
  | Other (msg : String)
deriving DecidableEq, Repr

/-- Backing-store errors (`couchbase::CouchbaseError`): the code matches only
on `DocumentNotFound`; every other variant is collapsed into `Generic`,
carrying its display text. -/
inductive CouchbaseError where
  | DocumentNotFound
  | Generic (msg : String)
deriving DecidableEq, Repr

/-- Display text of a backing-store error (Rust `format!("{}", e)`). -/
def errText : CouchbaseError → String
  | .DocumentNotFound => "document not found"
  | .Generic msg => msg

/-- main.rs `to_rpc_err`: wrap a store error into a generic RPC failure. -/
def to_rpc_err (e : CouchbaseError) : RpcError :=
  .Other ("Couchbase error: " ++ errText e)

/-- config.rs `Config`. -/
structure Config where
  url : String
  bucket : String
  collection : String
  username : String
  password : String
deriving DecidableEq, Repr

/-- config.rs `Config::new()`: the built-in defaults. -/
def Config.new : Config :=
  { url := "couchbase://0.0.0.0"
    bucket := "default"
    collection := "_default"
    username := "Administrator"
    password := "password" }

/-- `wasmbus_rpc::core::LinkDefinition`: the fields this code reads.
`values` is the link record's key/value bag (a HashMap in Rust, modelled
as an association list with unique keys looked up by `valuesGet`). -/
structure LinkDefinition where
  actor_id : String
  values : List (String × String)
deriving DecidableEq, Repr

/-- HashMap-style lookup in a key/value bag: first matching key wins. -/
def valuesGet (vs : List (String × String)) (k : String) : Option String :=
  match vs with
  | [] => none
  | (k1, v) :: rest => if k1 = k then some v else valuesGet rest k

/-- First stage of config.rs `load_config`: whole-struct replace from
`config_b64` when present (base64-decode, then JSON-parse), otherwise
the built-in defaults.  `b64decode` stands for `base64::decode`
(returning the decoded bytes as a string, `none` on malformed input) and
`parseConfig` for `serde_json` deserialization into `Config` (error text
on malformed input). -/
def configFromB64 (b64decode : String → Option String)
    (parseConfig : String → Except String Config)
    (ld : LinkDefinition) : Except RpcError Config :=
  match valuesGet ld.values "config_b64" with
  | none => .ok Config.new
  | some cj =>
    match b64decode cj with
    | none => .error (.ProviderInit "invalid config_base64 encoding")
    | some bytes =>
      match parseConfig bytes with
      | .error e => .error (.ProviderInit ("invalid json config: " ++ e))
      | .ok c => .ok c

/-- Second stage of config.rs `load_config`: whole-struct replace from
`config_json` when present. -/
def configFromJson (parseConfig : String → Except String Config)
    (ld : LinkDefinition) (c0 : Config) : Except RpcError Config :=
  match valuesGet ld.values "config_json" with
  | none => .ok c0
  | some cj =>
    match parseConfig cj with
    | .error e => .error (.ProviderInit ("invalid json config: " ++ e))
    | .ok c => .ok c

/-- Third stage of config.rs `load_config`: per-field patches from the
explicit keys, in source order (URL, collection, bucket, username,
password). -/
def configPatch (ld : LinkDefinition) (c1 : Config) : Config :=
  let c2 := match valuesGet ld.values "URL" with
    | none => c1
    | some url => { c1 with url := url }
  let c3 := match valuesGet ld.values "collection" with
    | none => c2
    | some col => { c2 with collection := col }
  let c4 := match valuesGet ld.values "bucket" with
    | none => c3
    | some b => { c3 with bucket := b }
  let c5 := match valuesGet ld.values "username" with
    | none => c4
    | some u => { c4 with username := u }
  let c6 := match valuesGet ld.values "password" with
    | none => c5
    | some p => { c5 with password := p }
  c6

/-- config.rs `load_config`: the three stages in sequence, with the `?`
early returns of the Rust code. -/
def load_config (b64decode : String → Option String)
    (parseConfig : String → Except String Config)
    (ld : LinkDefinition) : Except RpcError Config :=
  match configFromB64 b64decode parseConfig ld with
  | .error e => .error e
  | .ok c0 =>
    match configFromJson parseConfig ld c0 with
    | .error e => .error e
    | .ok c1 => .ok (configPatch ld c1)

/-- An open collection handle (`couchbase::Collection`), recording the
connection parameters it was opened with.  Note the Rust code never uses
`config.collection`: it opens the bucket's default collection. -/
structure Collection where
  url : String
  username : String
  password : String
  bucket : String
deriving DecidableEq, Repr

/-- config.rs `create_collection_conection`: `Cluster::connect`,
`cluster.bucket`, `bucket.default_collection` — none of these driver
calls returns an error (connection is lazy), so the function has no
error path. -/
def create_collection_conection (config : Config) : Except RpcError Collection :=
  .ok { url := config.url
        username := config.username
        password := config.password
        bucket := config.bucket }

/-- The provider's per-actor connection registry
(`actors: Arc<RwLock<HashMap<String, Collection>>>`), modelled as an
association list with HashMap semantics. -/
abbrev Registry := List (String × Collection)

/-- HashMap `get`. -/
def mapGet (m : Registry) (k : String) : Option Collection :=
  match m with
  | [] => none
  | (k1, v) :: rest => if k1 = k then some v else mapGet rest k

/-- HashMap `remove`: drop every entry under key `k`. -/
def mapRemove (m : Registry) (k : String) : Registry :=
  match m with
  | [] => []
  | (k1, v) :: rest =>
    if k1 = k then mapRemove rest k else (k1, v) :: mapRemove rest k

/-- HashMap `insert`: replaces any existing entry for `k`. -/
def mapInsert (m : Registry) (k : String) (v : Collection) : Registry :=
  (k, v) :: mapRemove m k

/-- main.rs `put_link`: load the config (propagating its error without
touching the registry), open the collection — the `.unwrap()` on that
result is modelled by the dedicated `panicErr` marker on its (dead)
error branch — and insert the handle under the actor id. -/
def put_link (b64decode : String → Option String)
    (parseConfig : String → Except String Config)
    (reg : Registry) (ld : LinkDefinition) : Except RpcError Bool × Registry :=
  match load_config b64decode parseConfig ld with
  | .error e => (.error e, reg)
  | .ok config =>
    match create_collection_conection config with
    | .error _ => (.error (.Other "panicked at unwrap"), reg)
    | .ok collection => (.ok true, mapInsert reg ld.actor_id collection)

/-- main.rs `delete_link`: remove (and drop) the actor's handle if present. -/
def delete_link (reg : Registry) (actor : String) : Registry :=
  mapRemove reg actor

/-- main.rs `shutdown`: drain the registry, dropping every handle. -/
def shutdown (_reg : Registry) : Registry :=
  []

/-- `wasmbus_rpc` request `Context`: the field this code reads. -/
structure Context where
  actor : Option String
deriving DecidableEq, Repr

/-- main.rs `actor_id`: the caller identity, or an invalid-parameter
error when the request carries none. -/
def actor_id (ctx : Context) : Except RpcError String :=
  match ctx.actor with
  | some a => .ok a
  | none => .error (.InvalidParameter "no actor in request")

/-- The registry resolution step shared by every supported operation
(`rd.get(actor_id).ok_or_else(...)`); the spec calls it `lookup` and its
failure `NotLinked`. -/
def lookupActor (reg : Registry) (aid : String) : Except RpcError Collection :=
  match mapGet reg aid with
  | none => .error (.InvalidParameter ("actor not linked:" ++ aid))
  | some c => .ok c

/-- One call issued to the backing store, for tracking side effects. -/
inductive StoreCall where
  | exist (key : String)
  | fetch (key : String)
  | remove (key : String)
deriving DecidableEq, Repr

/-- Outcome of one key-value operation: its RPC result, the registry
after the call (key-value handlers hold only a read lock, so they can
never change it), and the backing-store calls it issued. -/
structure OpResult (α : Type) where
  result : Except RpcError α
  registry : Registry
  calls : List StoreCall
deriving Repr

/-- Driver `ExistsResult` (`r.exists()`). -/
structure ExistsResult where
  exists_ : Bool
deriving DecidableEq, Repr

/-- Driver `GetResult`; `content` is the document's content as
deserialized by `r.content().unwrap()`. -/
structure GetResult where
  content : String
deriving DecidableEq, Repr

/-- Driver `MutationResult`, as returned by `remove` (opaque here). -/
structure MutationResult where
  cas : Nat
deriving DecidableEq, Repr

/-- Interface `GetResponse`; its Rust `Default` is
`{ value: "", exists: false }`. -/
structure GetResponse where
  value : String
  exists_ : Bool
deriving DecidableEq, Repr

/-- main.rs `contains`: resolve the caller's handle, issue one `exists`
call, map errors through `to_rpc_err`. -/
def contains (existsOracle : Collection → String → Except CouchbaseError ExistsResult)
    (reg : Registry) (ctx : Context) (arg : String) : OpResult Bool :=
  match actor_id ctx with
  | .error e => ⟨.error e, reg, []⟩
  | .ok aid =>
    match mapGet reg aid with
    | none => ⟨.error (.InvalidParameter ("actor not linked:" ++ aid)), reg, []⟩
    | some collection =>
      match existsOracle collection arg with
      | .ok r => ⟨.ok r.exists_, reg, [.exist arg]⟩
      | .error e => ⟨.error (to_rpc_err e), reg, [.exist arg]⟩

/-- main.rs `del`: resolve the caller's handle, issue one `remove` call;
on any non-error result report `1 > 0` (always true), ignoring whether a
document existed. -/
def del (removeOracle : Collection → String → Except CouchbaseError MutationResult)
    (reg : Registry) (ctx : Context) (arg : String) : OpResult Bool :=
  match actor_id ctx with
  | .error e => ⟨.error e, reg, []⟩
  | .ok aid =>
    match mapGet reg aid with
    | none => ⟨.error (.InvalidParameter ("actor not linked:" ++ aid)), reg, []⟩
    | some collection =>
      match removeOracle collection arg with
      | .ok _ => ⟨.ok (decide (1 > 0)), reg, [.remove arg]⟩
      | .error e => ⟨.error (to_rpc_err e), reg, [.remove arg]⟩

/-- main.rs `get`: resolve the caller's handle, issue one fetch; success
gives `exists: true` with the content, `DocumentNotFound` gives the
default response with `exists: false`, any other error goes through
`to_rpc_err`. -/
def get (getOracle : Collection → String → Except CouchbaseError GetResult)
    (reg : Registry) (ctx : Context) (arg : String) : OpResult GetResponse :=
  match actor_id ctx with
  | .error e => ⟨.error e, reg, []⟩
  | .ok aid =>
    match mapGet reg aid with
    | none => ⟨.error (.InvalidParameter ("actor not linked:" ++ aid)), reg, []⟩
    | some collection =>
      match getOracle collection arg with
      | .ok r => ⟨.ok { value := r.content, exists_ := true }, reg, [.fetch arg]⟩
      | .error .DocumentNotFound =>
        ⟨.ok { value := "", exists_ := false }, reg, [.fetch arg]⟩
      | .error e => ⟨.error (to_rpc_err e), reg, [.fetch arg]⟩

/-- Interface `IncrementRequest`. -/
structure IncrementRequest where
  key : String
  value : Int
deriving DecidableEq, Repr

/-- Interface `StringList`. -/
abbrev StringList := List String

/-- Interface `ListAddRequest`. -/
structure ListAddRequest where
  list_name : String
  value : String
deriving DecidableEq, Repr

/-- Interface `ListDelRequest`. -/
structure ListDelRequest where
  list_name : String
  value : String
deriving DecidableEq, Repr

/-- Interface `ListRangeRequest`. -/
structure ListRangeRequest where
  list_name : String
  start : Int
  stop : Int
deriving DecidableEq, Repr

/-- Interface `SetRequest`. -/
structure SetRequest where
  key : String
  value : String
  expires : Nat
deriving DecidableEq, Repr

/-- Interface `SetAddRequest`. -/
structure SetAddRequest where
  set_name : String
  value : String
deriving DecidableEq, Repr

/-- Interface `SetDelRequest`. -/
structure SetDelRequest where
  set_name : String
  value : String
deriving DecidableEq, Repr

/-- main.rs `increment`: unimplemented stub. -/
def increment (reg : Registry) (_ctx : Context) (_arg : IncrementRequest) : OpResult Int :=
  ⟨.error .NotImplemented, reg, []⟩

/-- main.rs `list_add`: unimplemented stub. -/
def list_add (reg : Registry) (_ctx : Context) (_arg : ListAddRequest) : OpResult Nat :=
  ⟨.error .NotImplemented, reg, []⟩

/-- main.rs `list_clear`: unimplemented stub. -/
def list_clear (reg : Registry) (_ctx : Context) (_arg : String) : OpResult Bool :=
  ⟨.error .NotImplemented, reg, []⟩

/-- main.rs `list_del`: unimplemented stub. -/
def list_del (reg : Registry) (_ctx : Context) (_arg : ListDelRequest) : OpResult Bool :=
  ⟨.error .NotImplemented, reg, []⟩

/-- main.rs `list_range`: unimplemented stub. -/
def list_range (reg : Registry) (_ctx : Context) (_arg : ListRangeRequest) : OpResult StringList :=
  ⟨.error .NotImplemented, reg, []⟩

/-- main.rs `set`: unimplemented stub. -/
def set (reg : Registry) (_ctx : Context) (_arg : SetRequest) : OpResult Unit :=
  ⟨.error .NotImplemented, reg, []⟩

/-- main.rs `set_add`: unimplemented stub. -/
def set_add (reg : Registry) (_ctx : Context) (_arg : SetAddRequest) : OpResult Nat :=
  ⟨.error .NotImplemented, reg, []⟩

/-- main.rs `set_del`: unimplemented stub. -/
def set_del (reg : Registry) (_ctx : Context) (_arg : SetDelRequest) : OpResult Nat :=
  ⟨.error .NotImplemented, reg, []⟩

/-- main.rs `set_clear`: unimplemented stub. -/
def set_clear (reg : Registry) (_ctx : Context) (_arg : String) : OpResult Bool :=
  ⟨.error .NotImplemented, reg, []⟩

/-- main.rs `set_intersection`: unimplemented stub. -/
def set_intersection (reg : Registry) (_ctx : Context) (_arg : StringList) : OpResult StringList :=
  ⟨.error .NotImplemented, reg, []⟩

/-- main.rs `set_query`: unimplemented stub. -/
def set_query (reg : Registry) (_ctx : Context) (_arg : String) : OpResult StringList :=
  ⟨.error .NotImplemented, reg, []⟩

/-- main.rs `set_union`: unimplemented stub. -/
def set_union (reg : Registry) (_ctx : Context) (_arg : StringList) : OpResult StringList :=
  ⟨.error .NotImplemented, reg, []⟩

/-- Whether an `Except` carries a success. -/
def exOk {ε α : Type} : Except ε α → Bool
  | .ok _ => true
  | .error _ => false

/-- The provider lifecycle events the host can deliver (`ProviderHandler`). -/
inductive PEvent where
  | putLink (ld : LinkDefinition)
  | deleteLink (actor : String)
  | shutdownEv
deriving Repr

/-- Effect of one lifecycle event on the registry. -/
def stepEvent (b64decode : String → Option String)
    (parseConfig : String → Except String Config)
    (reg : Registry) : PEvent → Registry
  | .putLink ld => (put_link b64decode parseConfig reg ld).2
  | .deleteLink actor => delete_link reg actor
  | .shutdownEv => shutdown reg

/-- Registry reached from the empty initial state after a trace of
lifecycle events. -/
def runEvents (b64decode : String → Option String)
    (parseConfig : String → Except String Config)
    (es : List PEvent) : Registry :=
  es.foldl (stepEvent b64decode parseConfig) []

/-- Whether a link for identity `a` is active after one more event:
a successful `put_link` for `a` activates it, a failed one leaves the
previous state, `delete_link` for `a` and `shutdown` deactivate it. -/
def activeStep (b64decode : String → Option String)
    (parseConfig : String → Except String Config)
    (a : String) (acc : Bool) : PEvent → Bool
  | .putLink ld =>
    if ld.actor_id = a then
      (if exOk (load_config b64decode parseConfig ld) then true else acc)
    else acc
  | .deleteLink x => if x = a then false else acc
  | .shutdownEv => false

/-- Whether a link for identity `a` is active after a whole trace. -/
def linkActive (b64decode : String → Option String)
    (parseConfig : String → Except String Config)
    (es : List PEvent) (a : String) : Bool :=
  es.foldl (activeStep b64decode parseConfig a) false

/-- Access mode taken on the provider's single `RwLock` that guards the
whole `actors` map. -/
inductive LockMode where
  | read
  | write
deriving DecidableEq, Repr

/-- The registry operations of the spec's contract, each tagged with the
identity it concerns (shutdown concerns all). -/
inductive RegOp where
  | register (identity : String)
  | unregister (identity : String)
  | lookupOp (identity : String)
  | shutdownAll
deriving DecidableEq, Repr

/-- Lock mode each registry operation acquires in the source:
`put_link`, `delete_link` and `shutdown` take `actors.write()`, the
lookup inside `get`/`contains`/`del` takes `actors.read()`. -/
def lockModeOf : RegOp → LockMode
  | .register _ => .write
  | .unregister _ => .write
  | .lookupOp _ => .read
  | .shutdownAll => .write

/-- Whether two registry operations exclude one another: both acquire
the one `RwLock` over the whole map, so they conflict exactly when not
both are reads — the identities involved play no role. -/
def blocksEachOther (a b : RegOp) : Bool :=
  match lockModeOf a, lockModeOf b with
  | .read, .read => false
  | _, _ => true

/-- Sample base64 oracle: every input decodes to itself. -/
def b64id : String → Option String := fun s => some s

/-- Sample base64 oracle: every input is malformed. -/
def b64bad : String → Option String := fun _ => none

/-- Sample JSON oracle: "A" and "B" parse to configs whose bucket is
that letter, everything else is malformed. -/
def parseEx : String → Except String Config :=
  fun s =>
    if s = "A" then .ok { Config.new with bucket := "A" }
    else if s = "B" then .ok { Config.new with bucket := "B" }
    else .error "bad"

/-- Sample collection handle for concrete registries. -/
def collA : Collection :=
  { url := "u", username := "n", password := "p", bucket := "b" }

/-- Sample fetch oracle: always succeeds with content "v". -/
def fetchOk : Collection → String → Except CouchbaseError GetResult :=
  fun _ _ => .ok { content := "v" }

/-- Sample fetch oracle: always reports the document missing. -/
def fetchMissing : Collection → String → Except CouchbaseError GetResult :=
  fun _ _ => .error .DocumentNotFound

/-- Sample fetch oracle: always fails with a timeout. -/
def fetchFail : Collection → String → Except CouchbaseError GetResult :=
  fun _ _ => .error (.Generic "timeout")

/-- Sample exists oracle: always reports presence. -/
def existsOk : Collection → String → Except CouchbaseError ExistsResult :=
  fun _ _ => .ok { exists_ := true }

/-- Sample remove oracle: always succeeds. -/
def removeOk : Collection → String → Except CouchbaseError MutationResult :=
  fun _ _ => .ok { cas := 7 }

/-! Helper lemmas about the registry map operations. -/

theorem mapGet_mapRemove (m : Registry) (k a : String) :
    mapGet (mapRemove m k) a = if k = a then none else mapGet m a := by
  induction m with
  | nil => simp only [mapRemove, mapGet]; split <;> rfl
  | cons hd tl ih =>
    obtain ⟨k1, v⟩ := hd
    simp only [mapRemove, mapGet]
    by_cases h1 : k1 = k
    · subst h1
      rw [if_pos rfl, ih]
      by_cases h2 : k1 = a <;> simp [h2]
    · simp only [if_neg h1, mapGet, ih]
      by_cases h2 : k1 = a
      · subst h2
        have hka : ¬(k = k1) := fun hh => h1 hh.symm
        simp [hka]
      · simp [h2]

theorem mapGet_mapInsert (m : Registry) (k a : String) (v : Collection) :
    mapGet (mapInsert m k v) a = if k = a then some v else mapGet m a := by
  simp only [mapInsert, mapGet]
  by_cases h : k = a
  · simp [h]
  · simp [h, mapGet_mapRemove]

theorem mapRemove_sublist (m : Registry) (k : String) :
    List.Sublist (mapRemove m k) m := by
  induction m with
  | nil => simp [mapRemove]
  | cons hd tl ih =>
    obtain ⟨k1, v⟩ := hd
    simp only [mapRemove]
    by_cases h1 : k1 = k
    · simp only [if_pos h1]
      exact ih.cons _
    · simp only [if_neg h1]
      exact ih.cons₂ _

theorem not_mem_keys_mapRemove (m : Registry) (k : String) :
    k ∉ (mapRemove m k).map Prod.fst := by
  induction m with
  | nil => simp [mapRemove]
  | cons hd tl ih =>
    obtain ⟨k1, v⟩ := hd
    simp only [mapRemove]
    by_cases h1 : k1 = k
    · simpa [h1] using ih
    · simp only [if_neg h1, List.map_cons, List.mem_cons]
      rintro (h | h)
      · exact h1 h.symm
      · exact ih h

theorem nodup_keys_mapRemove (m : Registry) (k : String)
    (h : (m.map Prod.fst).Nodup) : ((mapRemove m k).map Prod.fst).Nodup :=
  h.sublist ((mapRemove_sublist m k).map Prod.fst)

theorem nodup_keys_mapInsert (m : Registry) (k : String) (v : Collection)
    (h : (m.map Prod.fst).Nodup) : ((mapInsert m k v).map Prod.fst).Nodup := by
  simp only [mapInsert, List.map_cons, List.nodup_cons]
  exact ⟨not_mem_keys_mapRemove m k, nodup_keys_mapRemove m k h⟩

/-! Helper lemmas about load_config and the lifecycle step function. -/

theorem configFromB64_error_providerInit
    (b64decode : String → Option String) (parseConfig : String → Except String Config)
    (ld : LinkDefinition) (e : RpcError)
    (h : configFromB64 b64decode parseConfig ld = .error e) :
    ∃ msg, e = .ProviderInit msg := by
  unfold configFromB64 at h
  split at h
  · cases h
  · split at h
    · injection h with h1
      exact ⟨_, h1.symm⟩
    · split at h
      · injection h with h1
        exact ⟨_, h1.symm⟩
      · cases h

theorem configFromJson_error_providerInit
    (parseConfig : String → Except String Config)
    (ld : LinkDefinition) (c0 : Config) (e : RpcError)
    (h : configFromJson parseConfig ld c0 = .error e) :
    ∃ msg, e = .ProviderInit msg := by
  unfold configFromJson at h
  split at h
  · cases h
  · split at h
    · injection h with h1
      exact ⟨_, h1.symm⟩
    · cases h

theorem load_config_error_providerInit
    (b64decode : String → Option String) (parseConfig : String → Except String Config)
    (ld : LinkDefinition) (e : RpcError)
    (h : load_config b64decode parseConfig ld = .error e) :
    ∃ msg, e = .ProviderInit msg := by
  unfold load_config at h
  split at h
  · cases h
    exact configFromB64_error_providerInit _ _ _ _ (by assumption)
  · split at h
    · cases h
      exact configFromJson_error_providerInit _ _ _ _ (by assumption)
    · cases h

theorem mapGet_stepEvent
    (b64decode : String → Option String) (parseConfig : String → Except String Config)
    (reg : Registry) (a : String) (e : PEvent) :
    (mapGet (stepEvent b64decode parseConfig reg e) a).isSome
      = activeStep b64decode parseConfig a (mapGet reg a).isSome e := by
  cases e with
  | putLink ld =>
    simp only [stepEvent, put_link, activeStep]
    cases hlc : load_config b64decode parseConfig ld with
    | error err => simp [exOk]
    | ok cfg =>
      simp only [create_collection_conection, exOk, mapGet_mapInsert]
      by_cases h : ld.actor_id = a
      · simp [h]
      · simp [h]
  | deleteLink x =>
    simp only [stepEvent, delete_link, activeStep, mapGet_mapRemove]
    by_cases h : x = a
    · simp [h]
    · simp [h]
  | shutdownEv => simp [stepEvent, shutdown, mapGet, activeStep]

theorem mapGet_foldl_stepEvent
    (b64decode : String → Option String) (parseConfig : String → Except String Config)
    (es : List PEvent) :
    ∀ reg a, (mapGet (es.foldl (stepEvent b64decode parseConfig) reg) a).isSome
      = es.foldl (activeStep b64decode parseConfig a) (mapGet reg a).isSome := by
  induction es with
  | nil => intro reg a; rfl
  | cons e rest ih =>
    intro reg a
    simp only [List.foldl_cons]
    rw [ih, mapGet_stepEvent]

theorem nodup_keys_stepEvent
    (b64decode : String → Option String) (parseConfig : String → Except String Config)
    (reg : Registry) (e : PEvent)
    (h : (reg.map Prod.fst).Nodup) :
    ((stepEvent b64decode parseConfig reg e).map Prod.fst).Nodup := by
  cases e with
  | putLink ld =>
    simp only [stepEvent, put_link]
    cases hlc : load_config b64decode parseConfig ld with
    | error err => exact h
    | ok cfg => exact nodup_keys_mapInsert _ _ _ h
  | deleteLink x => exact nodup_keys_mapRemove _ _ h
  | shutdownEv => simp [stepEvent, shutdown]

theorem nodup_keys_foldl_stepEvent
    (b64decode : String → Option String) (parseConfig : String → Except String Config)
    (es : List PEvent) :
    ∀ reg, (reg.map Prod.fst).Nodup →
      ((es.foldl (stepEvent b64decode parseConfig) reg).map Prod.fst).Nodup := by
  induction es with
  | nil => intro reg h; exact h
  | cons e rest ih =>
    intro reg h
    simp only [List.foldl_cons]
    exact ih _ (nodup_keys_stepEvent b64decode parseConfig reg e h)

theorem configPatch_bucket (ld : LinkDefinition) (c : Config) :
    (configPatch ld c).bucket =
      match valuesGet ld.values "bucket" with
      | none => c.bucket
      | some b => b := by
  unfold configPatch
  cases valuesGet ld.values "URL" <;> cases valuesGet ld.values "collection" <;>
    cases valuesGet ld.values "bucket" <;> cases valuesGet ld.values "username" <;>
      cases valuesGet ld.values "password" <;> rfl

theorem configPatch_no_overrides (ld : LinkDefinition) (c : Config)
    (hURL : valuesGet ld.values "URL" = none)
    (hcol : valuesGet ld.values "collection" = none)
    (hbk : valuesGet ld.values "bucket" = none)
    (hus : valuesGet ld.values "username" = none)
    (hpw : valuesGet ld.values "password" = none) :
    configPatch ld c = c := by
  unfold configPatch
  simp [hURL, hcol, hbk, hus, hpw]

/-! The claims. -/

/-- C1: for every linked identity and key, `get` maps a successful
backing-store fetch to `{exists: true, value: <content>}`, a
document-not-found outcome to the non-error default response with
`exists: false`, and every other backing-store error to a generic
operation failure carrying the store's error text. -/
theorem get_maps_store_outcomes
    (getOracle : Collection → String → Except CouchbaseError GetResult)
    (reg : Registry) (ctx : Context) (a key : String) (coll : Collection)
    (hactor : ctx.actor = some a) (hlink : mapGet reg a = some coll) :
    (∀ r, getOracle coll key = .ok r →
      (get getOracle reg ctx key).result = .ok { value := r.content, exists_ := true }) ∧
    (getOracle coll key = .error .DocumentNotFound →
      (get getOracle reg ctx key).result = .ok { value := "", exists_ := false }) ∧
    (∀ e, getOracle coll key = .error e → e ≠ .DocumentNotFound →
      (get getOracle reg ctx key).result =
        .error (.Other ("Couchbase error: " ++ errText e))) := by
  refine ⟨?_, ?_, ?_⟩
  · intro r hr
    simp [get, actor_id, hactor, hlink, hr]
  · intro hr
    simp [get, actor_id, hactor, hlink, hr]
  · intro e hr hne
    cases e with
    | DocumentNotFound => exact absurd rfl hne
    | Generic msg => simp [get, actor_id, hactor, hlink, hr, to_rpc_err, errText]

theorem get_maps_store_outcomes_witness :
    (get fetchOk [("a", collA)] { actor := some "a" } "k").result =
      .ok { value := "v", exists_ := true } ∧
    (get fetchMissing [("a", collA)] { actor := some "a" } "k").result =
      .ok { value := "", exists_ := false } ∧
    (get fetchFail [("a", collA)] { actor := some "a" } "k").result =
      .error (.Other ("Couchbase error: " ++ "timeout")) := by
  refine ⟨?_, ?_, ?_⟩
  · exact (get_maps_store_outcomes fetchOk [("a", collA)] { actor := some "a" } "a" "k" collA
      rfl (by simp [mapGet])).1 { content := "v" } rfl
  · exact (get_maps_store_outcomes fetchMissing [("a", collA)] { actor := some "a" } "a" "k" collA
      rfl (by simp [mapGet])).2.1 rfl
  · exact (get_maps_store_outcomes fetchFail [("a", collA)] { actor := some "a" } "a" "k" collA
      rfl (by simp [mapGet])).2.2 (.Generic "timeout") rfl (by simp)

/-- C2: with `config_b64` (bucket A), `config_json` (bucket B) and the
explicit key `bucket=C` all present, `load_config` resolves the bucket
to C; with only `config_b64` present (bucket A) and no other overrides,
the resolved bucket is A (the whole resolved config is the decoded one). -/
theorem load_config_precedence :
    (∀ (b64decode : String → Option String) (parseConfig : String → Except String Config)
        (ld : LinkDefinition) (s t : String) (cfgA : Config) (u : String) (cfgB : Config)
        (c : String),
      valuesGet ld.values "config_b64" = some s → b64decode s = some t →
      parseConfig t = .ok cfgA →
      valuesGet ld.values "config_json" = some u → parseConfig u = .ok cfgB →
      valuesGet ld.values "bucket" = some c →
      ∃ cfg, load_config b64decode parseConfig ld = .ok cfg ∧ cfg.bucket = c) ∧
    (∀ (b64decode : String → Option String) (parseConfig : String → Except String Config)
        (ld : LinkDefinition) (s t : String) (cfgA : Config),
      valuesGet ld.values "config_b64" = some s → b64decode s = some t →
      parseConfig t = .ok cfgA →
      valuesGet ld.values "config_json" = none →
      valuesGet ld.values "URL" = none →
      valuesGet ld.values "collection" = none →
      valuesGet ld.values "bucket" = none →
      valuesGet ld.values "username" = none →
      valuesGet ld.values "password" = none →
      load_config b64decode parseConfig ld = .ok cfgA) := by
  constructor
  · intro b64decode parseConfig ld s t cfgA u cfgB c hb hdec hpa hj hpb hbk
    refine ⟨configPatch ld cfgB, ?_, ?_⟩
    · simp [load_config, configFromB64, configFromJson, hb, hdec, hpa, hj, hpb]
    · rw [configPatch_bucket, hbk]
  · intro b64decode parseConfig ld s t cfgA hb hdec hpa hj hURL hcol hbk hus hpw
    simp [load_config, configFromB64, configFromJson, hb, hdec, hpa, hj,
      configPatch_no_overrides ld cfgA hURL hcol hbk hus hpw]

theorem load_config_precedence_witness :
    (∃ cfg, load_config b64id parseEx
        { actor_id := "actor",
          values := [("config_b64", "A"), ("config_json", "B"), ("bucket", "C")] } =
        .ok cfg ∧ cfg.bucket = "C") ∧
    load_config b64id parseEx
        { actor_id := "actor", values := [("config_b64", "A")] } =
      .ok { Config.new with bucket := "A" } := by
  constructor
  · exact load_config_precedence.1 b64id parseEx
      { actor_id := "actor",
        values := [("config_b64", "A"), ("config_json", "B"), ("bucket", "C")] }
      "A" "A" { Config.new with bucket := "A" } "B" { Config.new with bucket := "B" } "C"
      (by simp [valuesGet]) rfl (by simp [parseEx])
      (by simp [valuesGet]) (by simp [parseEx]) (by simp [valuesGet])
  · exact load_config_precedence.2 b64id parseEx
      { actor_id := "actor", values := [("config_b64", "A")] }
      "A" "A" { Config.new with bucket := "A" }
      (by simp [valuesGet]) rfl (by simp [parseEx])
      (by simp [valuesGet]) (by simp [valuesGet]) (by simp [valuesGet])
      (by simp [valuesGet]) (by simp [valuesGet]) (by simp [valuesGet])

/-- C6: for every linked identity and key, `del` returns `true` whenever
the backing-store remove call returns without error, whatever mutation
result the store reports (existence of a prior document plays no role). -/
theorem del_reports_true_on_success
    (removeOracle : Collection → String → Except CouchbaseError MutationResult)
    (reg : Registry) (ctx : Context) (a key : String) (coll : Collection)
    (r : MutationResult)
    (hactor : ctx.actor = some a) (hlink : mapGet reg a = some coll)
    (hok : removeOracle coll key = .ok r) :
    (del removeOracle reg ctx key).result = .ok true := by
  simp [del, actor_id, hactor, hlink, hok]

theorem del_reports_true_on_success_witness :
    (del removeOk [("a", collA)] { actor := some "a" } "k").result = .ok true := by
  exact del_reports_true_on_success removeOk [("a", collA)] { actor := some "a" } "a" "k"
    collA { cas := 7 } rfl (by simp [mapGet]) rfl

/-- C7: every unsupported operation, in every context and for every
argument, fails with `NotImplemented`, issues no backing-store call, and
leaves the registry unchanged. -/
theorem unsupported_ops_not_implemented (reg : Registry) (ctx : Context) :
    (∀ arg, increment reg ctx arg = ⟨.error .NotImplemented, reg, []⟩) ∧
    (∀ arg, list_add reg ctx arg = ⟨.error .NotImplemented, reg, []⟩) ∧
    (∀ arg, list_del reg ctx arg = ⟨.error .NotImplemented, reg, []⟩) ∧
    (∀ arg, list_range reg ctx arg = ⟨.error .NotImplemented, reg, []⟩) ∧
    (∀ arg, list_clear reg ctx arg = ⟨.error .NotImplemented, reg, []⟩) ∧
    (∀ arg, set reg ctx arg = ⟨.error .NotImplemented, reg, []⟩) ∧
    (∀ arg, set_add reg ctx arg = ⟨.error .NotImplemented, reg, []⟩) ∧
    (∀ arg, set_del reg ctx arg = ⟨.error .NotImplemented, reg, []⟩) ∧
    (∀ arg, set_clear reg ctx arg = ⟨.error .NotImplemented, reg, []⟩) ∧
    (∀ arg, set_intersection reg ctx arg = ⟨.error .NotImplemented, reg, []⟩) ∧
    (∀ arg, set_union reg ctx arg = ⟨.error .NotImplemented, reg, []⟩) ∧
    (∀ arg, set_query reg ctx arg = ⟨.error .NotImplemented, reg, []⟩) :=
  ⟨fun _ => rfl, fun _ => rfl, fun _ => rfl, fun _ => rfl, fun _ => rfl, fun _ => rfl,
    fun _ => rfl, fun _ => rfl, fun _ => rfl, fun _ => rfl, fun _ => rfl, fun _ => rfl⟩

/-- C10: a request whose context carries no actor identity makes each
supported operation return the invalid-parameter error "no actor in
request", with no backing-store call and the registry untouched,
whatever the registry contains. -/
theorem no_actor_invalid_param
    (existsOracle : Collection → String → Except CouchbaseError ExistsResult)
    (getOracle : Collection → String → Except CouchbaseError GetResult)
    (removeOracle : Collection → String → Except CouchbaseError MutationResult)
    (reg : Registry) (ctx : Context) (key : String)
    (hnone : ctx.actor = none) :
    contains existsOracle reg ctx key =
      ⟨.error (.InvalidParameter "no actor in request"), reg, []⟩ ∧
    get getOracle reg ctx key =
      ⟨.error (.InvalidParameter "no actor in request"), reg, []⟩ ∧
    del removeOracle reg ctx key =
      ⟨.error (.InvalidParameter "no actor in request"), reg, []⟩ := by
  refine ⟨?_, ?_, ?_⟩ <;> simp [contains, get, del, actor_id, hnone]

theorem no_actor_invalid_param_witness :
    contains existsOk [("a", collA)] { actor := none } "k" =
      ⟨.error (.InvalidParameter "no actor in request"), [("a", collA)], []⟩ := by
  exact (no_actor_invalid_param existsOk fetchOk removeOk [("a", collA)]
    { actor := none } "k" rfl).1

/-- C3 counterexample: for a never-registered identity, `increment` — an
unsupported operation — fails with `NotImplemented`, not with the
NotLinked (actor-not-linked invalid-parameter) error the claim states. -/
theorem unsupported_not_notlinked_counterexample :
    (increment [] { actor := some "a" } { key := "k", value := 1 }).result =
      .error .NotImplemented ∧
    (increment [] { actor := some "a" } { key := "k", value := 1 }).result ≠
      .error (.InvalidParameter ("actor not linked:" ++ "a")) := by
  exact ⟨rfl, by simp [increment]⟩

/-- C3 (amended): for every identity never registered, the registry
lookup and every supported key-value request (`get`, `contains`, `del`)
fail with the NotLinked error; the unsupported operations fail with
`NotImplemented` instead, regardless of the registry. -/
theorem not_linked_behavior
    (existsOracle : Collection → String → Except CouchbaseError ExistsResult)
    (getOracle : Collection → String → Except CouchbaseError GetResult)
    (removeOracle : Collection → String → Except CouchbaseError MutationResult)
    (reg : Registry) (ctx : Context) (a key : String)
    (hactor : ctx.actor = some a) (hnone : mapGet reg a = none) :
    lookupActor reg a = .error (.InvalidParameter ("actor not linked:" ++ a)) ∧
    (contains existsOracle reg ctx key).result =
      .error (.InvalidParameter ("actor not linked:" ++ a)) ∧
    (get getOracle reg ctx key).result =
      .error (.InvalidParameter ("actor not linked:" ++ a)) ∧
    (del removeOracle reg ctx key).result =
      .error (.InvalidParameter ("actor not linked:" ++ a)) ∧
    (∀ arg, (increment reg ctx arg).result = .error .NotImplemented) ∧
    (∀ arg, (list_add reg ctx arg).result = .error .NotImplemented) ∧
    (∀ arg, (list_del reg ctx arg).result = .error .NotImplemented) ∧
    (∀ arg, (list_range reg ctx arg).result = .error .NotImplemented) ∧
    (∀ arg, (list_clear reg ctx arg).result = .error .NotImplemented) ∧
    (∀ arg, (set reg ctx arg).result = .error .NotImplemented) ∧
    (∀ arg, (set_add reg ctx arg).result = .error .NotImplemented) ∧
    (∀ arg, (set_del reg ctx arg).result = .error .NotImplemented) ∧
    (∀ arg, (set_clear reg ctx arg).result = .error .NotImplemented) ∧
    (∀ arg, (set_intersection reg ctx arg).result = .error .NotImplemented) ∧
    (∀ arg, (set_union reg ctx arg).result = .error .NotImplemented) ∧
    (∀ arg, (set_query reg ctx arg).result = .error .NotImplemented) := by
  refine ⟨?_, ?_, ?_, ?_, fun _ => rfl, fun _ => rfl, fun _ => rfl, fun _ => rfl,
    fun _ => rfl, fun _ => rfl, fun _ => rfl, fun _ => rfl, fun _ => rfl, fun _ => rfl,
    fun _ => rfl, fun _ => rfl⟩
  · simp [lookupActor, hnone]
  · simp [contains, actor_id, hactor, hnone]
  · simp [get, actor_id, hactor, hnone]
  · simp [del, actor_id, hactor, hnone]

theorem not_linked_behavior_witness :
    lookupActor [] "a" = .error (.InvalidParameter ("actor not linked:" ++ "a")) ∧
    (contains existsOk [] { actor := some "a" } "k").result =
      .error (.InvalidParameter ("actor not linked:" ++ "a")) := by
  have h := not_linked_behavior existsOk fetchOk removeOk [] { actor := some "a" } "a" "k"
    rfl rfl
  exact ⟨h.1, h.2.1⟩

/-- C4: the registry reached from the empty state by any trace of
lifecycle events maps each identity to at most one handle (its key list
has no duplicates), and an identity is present exactly when a successful
put-link for it was not followed by a delete-link for it or a shutdown. -/
theorem registry_invariant
    (b64decode : String → Option String) (parseConfig : String → Except String Config)
    (es : List PEvent) (a : String) :
    (mapGet (runEvents b64decode parseConfig es) a).isSome
        = linkActive b64decode parseConfig es a ∧
    ((runEvents b64decode parseConfig es).map Prod.fst).Nodup := by
  constructor
  · have h := mapGet_foldl_stepEvent b64decode parseConfig es [] a
    simpa [runEvents, linkActive, mapGet] using h
  · exact nodup_keys_foldl_stepEvent b64decode parseConfig es [] (by simp)

/-- C5: a link record whose `config_b64` is malformed base64, or whose
`config_b64`/`config_json` decodes to malformed JSON, makes `put_link`
fail with a provider-initialization error and leave the registry
untouched; and the backing-store connect step has no failing outcome at
all (so the connect-failure case of the claim is vacuous). -/
theorem put_link_rejects_invalid_config
    (b64decode : String → Option String) (parseConfig : String → Except String Config)
    (reg : Registry) (ld : LinkDefinition) :
    (∀ e, load_config b64decode parseConfig ld = .error e →
      put_link b64decode parseConfig reg ld = (.error e, reg) ∧
        ∃ msg, e = .ProviderInit msg) ∧
    (∀ s, valuesGet ld.values "config_b64" = some s → b64decode s = none →
      load_config b64decode parseConfig ld =
        .error (.ProviderInit "invalid config_base64 encoding")) ∧
    (∀ s t err, valuesGet ld.values "config_b64" = some s → b64decode s = some t →
      parseConfig t = .error err →
      load_config b64decode parseConfig ld =
        .error (.ProviderInit ("invalid json config: " ++ err))) ∧
    (∀ u err, valuesGet ld.values "config_b64" = none →
      valuesGet ld.values "config_json" = some u → parseConfig u = .error err →
      load_config b64decode parseConfig ld =
        .error (.ProviderInit ("invalid json config: " ++ err))) ∧
    (∀ config, exOk (create_collection_conection config) = true) := by
  refine ⟨?_, ?_, ?_, ?_, fun _ => rfl⟩
  · intro e h
    refine ⟨?_, load_config_error_providerInit _ _ _ _ h⟩
    simp [put_link, h]
  · intro s hs hd
    simp [load_config, configFromB64, hs, hd]
  · intro s t err hs hd hp
    simp [load_config, configFromB64, hs, hd, hp]
  · intro u err hb hj hp
    simp [load_config, configFromB64, configFromJson, hb, hj, hp]

theorem put_link_rejects_invalid_config_witness :
    put_link b64bad parseEx [] { actor_id := "actor", values := [("config_b64", "zzz")] } =
      (.error (.ProviderInit "invalid config_base64 encoding"), []) := by
  have h := put_link_rejects_invalid_config b64bad parseEx []
    { actor_id := "actor", values := [("config_b64", "zzz")] }
  exact (h.1 _ (h.2.1 "zzz" (by simp [valuesGet]) rfl)).1

/-- C8 counterexample: register("x") and lookup("y") act on the one
RwLock guarding the whole actors map, with write and read mode, so they
do exclude each other even though "x" and "y" are distinct identities. -/
theorem writer_blocks_other_reader_counterexample :
    ("x" : String) ≠ "y" ∧
    blocksEachOther (.register "x") (.lookupOp "y") = true := by
  exact ⟨by decide, rfl⟩

/-- C8 (amended): concurrent lookups never block each other, for any
identities; but a register or unregister for identity X excludes every
concurrent lookup, including a lookup of any other identity Y, because a
single RwLock guards the whole registry. -/
theorem lock_exclusion (x y : String) :
    blocksEachOther (.lookupOp x) (.lookupOp y) = false ∧
    blocksEachOther (.register x) (.lookupOp y) = true ∧
    blocksEachOther (.unregister x) (.lookupOp y) = true ∧
    blocksEachOther RegOp.shutdownAll (.lookupOp y) = true :=
  ⟨rfl, rfl, rfl, rfl⟩

/-- C9: `create_collection_conection` returns Ok on every configuration
(it has no error path), so the unwrap inside `put_link` can never panic
and no connect failure is ever reported at link-establishment time. -/
theorem create_collection_conection_infallible :
    (∀ config, create_collection_conection config =
      .ok { url := config.url, username := config.username,
            password := config.password, bucket := config.bucket }) ∧
    (∀ (b64decode : String → Option String) (parseConfig : String → Except String Config)
        (reg : Registry) (ld : LinkDefinition),
      (put_link b64decode parseConfig reg ld).1 ≠ .error (.Other "panicked at unwrap")) := by
  constructor
  · intro config
    rfl
  · intro b64decode parseConfig reg ld
    cases h : load_config b64decode parseConfig ld with
    | error e =>
      obtain ⟨msg, rfl⟩ := load_config_error_providerInit _ _ _ _ h
      simp [put_link, h]
    | ok cfg => simp [put_link, h, create_collection_conection]

end KvCouchbase
